import Mathlib

/-!
Verification development for the chahua-license-system repository.

The core under `lib/license-generator.js` (together with the appended
`license-guard.js`) is embedded shallowly:

* Cryptographic primitives (sha256/sha512 hex digests, PBKDF2, AES-256-CBC,
  base64, hex rendering) are modelled symbolically by the free datatype `Msg`:
  each primitive is a constructor, so equality of messages is equality of the
  computation trees that produced them.  This is the standard symbolic
  (Dolev-Yao) idealization: hashes and ciphers are injective, and decryption
  under the wrong derived key or IV fails (`bad decrypt`), which is the
  overwhelmingly likely behaviour of AES-CBC padding validation.
* One deliberate refinement of the hex layer is kept, because the source's
  behaviour depends on it: Node's `Buffer.from(text, 'hex')` parses hex
  case-insensitively, while `buf.toString('hex')` always renders lowercase.
  `Msg.hex` is the canonical lowercase rendering produced by
  `toString('hex')`; `Msg.hexUpper` is a non-canonical casing variant of the
  same bytes (for a 32-byte random salt the hex text contains a letter with
  overwhelming probability, so flipping one letter's case is a single-byte
  change of the text).  Both parse back to the same bytes (`unhex`).
* JavaScript objects become structures; `null`/absent string fields become
  `Option String`; timestamps are integer milliseconds; JS truthiness of the
  `durationDays` number is `≠ 0`, of an optional string `some s` with
  `s ≠ ""`.
* File I/O is explicit state passing: `verifyLicense` receives the current
  content of `chahua_license_state.json` (`Option Msg`, `none` = absent) and
  reports the written state (`none` = no write happened).
-/

/-- The decrypted license payload built by the generator
(`license-generator.js`, `generateDailyLicense` / `generateForOrder` /
`generateDevLicense`).  Optional fields model JS fields that can be `null`
or absent; `durationDays` is a JS number (absent behaves like `0` under
the only operations the code applies to it: truthiness, comparison). -/
structure LicenseData where
  type : String
  pluginId : Option String
  licenseId : String
  fingerprint : Option String
  generatedAt : String
  durationDays : Int
  features : List String
  issuer : String
  version : String
  orderId : Option String
  customerEmail : Option String
  customerName : Option String
  productName : Option String
  deriving DecidableEq

/-- The persisted activation state (`chahua_license_state.json`), read and
written by `verifyLicense`.  `tierActivationDate` is `null` or a timestamp
(ms since epoch, the content of the stored ISO string). -/
structure UserState where
  activeTier : Int
  tierActivationDate : Option Int
  activatedPlugins : List String
  deriving DecidableEq

/-- Symbolic byte/text values.  Each cryptographic or encoding primitive used
by `license-generator.js` is a free constructor, so distinct computations
yield distinct values (collision-free idealization of sha256/sha512, PBKDF2
and AES-256-CBC), except where the source's own behaviour identifies texts:
`hex` and `hexUpper` are two text renderings of the same underlying bytes,
identified by the parser `unhex` (Node's `Buffer.from(·,'hex')` is
case-insensitive while `toString('hex')` emits lowercase). -/
inductive Msg : Type where
  /-- a literal text -/
  | lit : String → Msg
  /-- `JSON.stringify` of a license record -/
  | jsonLicense : LicenseData → Msg
  /-- `JSON.stringify` of a persisted user state -/
  | jsonState : UserState → Msg
  /-- `JSON.stringify` of the encrypted package
  `{v, s, i, d, p, c, h}` built in `encryptLicense` (in field order:
  version, salt hex, iv hex, ciphertext hex, padding hex, created-at, hash) -/
  | jsonPackage : String → Msg → Msg → Msg → Msg → Int → Msg → Msg
  /-- base64 rendering of a text -/
  | b64 : Msg → Msg
  /-- `-----BEGIN/END CHAHUA LICENSE-----` wrapping with line breaks -/
  | pem : Msg → Msg
  /-- canonical lowercase hex rendering of bytes (`buf.toString('hex')`) -/
  | hex : Msg → Msg
  /-- a non-canonical casing variant of the hex rendering of the same bytes:
  a distinct text (differing from `hex` in at least one byte, e.g. one
  letter uppercased) that `Buffer.from(·,'hex')` parses to the same bytes -/
  | hexUpper : Msg → Msg
  /-- an opaque byte string (`crypto.randomBytes`), identified by a seed -/
  | bytes : Nat → Msg
  /-- string concatenation `a + b` -/
  | cat : Msg → Msg → Msg
  /-- sha256 hex digest of a text -/
  | sha256 : Msg → Msg
  /-- sha512 hex digest of a text -/
  | sha512 : Msg → Msg
  /-- `crypto.pbkdf2Sync(pass, salt, rounds, len, 'sha512')` -/
  | pbkdf2 : Msg → Msg → Nat → Nat → Msg
  /-- AES-256-CBC ciphertext (hex output) of `plain` under `key`, `iv` -/
  | cipher : Msg → Msg → Msg → Msg
  deriving DecidableEq

/-- `getFixedEncryptionKey` (license-generator.js:1032): the fixed embedded
secret, `sha512('chahuadev-framework-v3.0-encryption-master-key-2025')`
rendered as hex. -/
def getFixedEncryptionKey : Msg :=
  Msg.sha512 (Msg.lit "chahuadev-framework-v3.0-encryption-master-key-2025")

/-- `encryptLicense` (license-generator.js:507-546).  The fresh random salt,
IV and padding bytes are passed explicitly ( `crypto.randomBytes` at lines
513-514 and 532), `nowMs` is `Date.now()`.  Returns the base64 content
(without PEM header/footer), exactly as the source returns `finalData`. -/
def encryptLicense (encryptionKey salt iv pad : Msg) (nowMs : Int)
    (licenseData : LicenseData) : Msg :=
  let jsonData := Msg.jsonLicense licenseData
  let derivedKey := Msg.pbkdf2 encryptionKey salt 100000 32
  let encrypted := Msg.cipher derivedKey iv jsonData
  Msg.b64 (Msg.jsonPackage "3.0" (Msg.hex salt) (Msg.hex iv) encrypted
    (Msg.hex pad) nowMs
    (Msg.sha256 (Msg.cat encrypted (Msg.hex salt))))

/-- Step 1 of `decryptLicense`: strip the PEM header/footer and newlines.
Content that is not PEM-wrapped is passed through unchanged (the `replace`
calls find nothing). -/
def stripPem : Msg → Msg
  | .pem m => m
  | m => m

/-- `Buffer.from(text, 'base64').toString('utf8')`: inverts `b64`; on any
other text it produces some decoded byte string, modelled symbolically. -/
def unb64 : Msg → Msg
  | .b64 m => m
  | m => Msg.cat (Msg.lit "base64decoded:") m

/-- `Buffer.from(text, 'hex')`: inverts both casings of a hex rendering
(Node hex parsing is case-insensitive); any other text yields some byte
string, modelled symbolically. -/
def unhex : Msg → Msg
  | .hex m => m
  | .hexUpper m => m
  | m => Msg.cat (Msg.lit "hexdecoded:") m

/-- First character of the text, for the JSON parse-error message (the
`SyntaxError` produced by `JSON.parse` depends only on the offending text). -/
def msgHeadChar : Msg → Char
  | .lit s => s.front
  | _ => 'o'

/-- The `SyntaxError.message` of `JSON.parse` on a text that is not valid
JSON of the expected shape: a pure function of the text alone — both call
sites of `JSON.parse` in `decryptLicense` produce messages of this same
form, with no indication of which stage failed. -/
def jsonErrorMsg (m : Msg) : String :=
  "Unexpected token " ++ String.singleton (msgHeadChar m) ++
    " in JSON at position 0"

/-- AES-256-CBC decryption (`createDecipheriv` + `update`/`final`,
license-generator.js:579-583): inverts `cipher` under the same derived key
and IV; a wrong key or IV makes `final()` reject the padding
(`bad decrypt`), as does a text that is not a ciphertext. -/
def aesDecrypt (key iv ct : Msg) : Except String Msg :=
  match ct with
  | .cipher k i m => if k = key ∧ i = iv then .ok m else .error "bad decrypt"
  | _ => .error "bad decrypt"

/-- The operations `decryptLicense` performs after the envelope structure has
been parsed, in source order; recorded so that theorems can state which
stages ran. -/
inductive DecEvent where
  | digestCheck
  | kdf
  | decryptData
  | parsePlain
  deriving DecidableEq

instance exceptDecEq {ε α : Type} [DecidableEq ε] [DecidableEq α] :
    DecidableEq (Except ε α)
  | .error a, .error b =>
    if h : a = b then .isTrue (by rw [h]) else .isFalse (by simp [h])
  | .error _, .ok _ => .isFalse (by simp)
  | .ok _, .error _ => .isFalse (by simp)
  | .ok a, .ok b =>
    if h : a = b then .isTrue (by rw [h]) else .isFalse (by simp [h])

/-- Result of `decryptLicense` plus the trace of stages that executed. -/
structure DecOutcome where
  result : Except String LicenseData
  events : List DecEvent
  deriving DecidableEq

/-- `decryptLicense` (license-generator.js:551-599).  Every thrown error is
caught and surfaced as `License decryption failed: ` plus the exception
message.  A text whose base64 decoding is not the JSON of an encrypted
package fails when it is parsed / its fields are read (events `[]`: the
integrity check never ran).  The integrity hash is recomputed over
`encrypted + salt.toString('hex')` — i.e. over the ciphertext text as
stored and the canonical lowercase re-rendering of the parsed salt bytes —
and compared to the stored `h` before the key derivation and decryption
steps run. -/
def decryptLicense (encryptionKey input : Msg) : DecOutcome :=
  match unb64 (stripPem input) with
  | .jsonPackage _v s i d _p _c h =>
    let salt := unhex s
    let iv := unhex i
    let calculatedHash := Msg.sha256 (Msg.cat d (Msg.hex salt))
    if calculatedHash ≠ h then
      ⟨.error "License decryption failed: License integrity check failed",
       [.digestCheck]⟩
    else
      let derivedKey := Msg.pbkdf2 encryptionKey salt 100000 32
      match aesDecrypt derivedKey iv d with
      | .error e =>
        ⟨.error ("License decryption failed: " ++ e),
         [.digestCheck, .kdf, .decryptData]⟩
      | .ok plain =>
        match plain with
        | .jsonLicense licenseData =>
          ⟨.ok licenseData, [.digestCheck, .kdf, .decryptData, .parsePlain]⟩
        | other =>
          ⟨.error ("License decryption failed: " ++ jsonErrorMsg other),
           [.digestCheck, .kdf, .decryptData, .parsePlain]⟩
  | other =>
    ⟨.error ("License decryption failed: " ++ jsonErrorMsg other), []⟩

/-- One day in milliseconds; the calendar arithmetic
`date.setDate(date.getDate() + n)` is modelled as adding `n` whole days. -/
def dayMs : Int := 86400000

/-- `Math.ceil(x / dayMs)` on an integer millisecond difference. -/
def ceilDays (x : Int) : Int := (x + dayMs - 1).fdiv dayMs

/-- JS truthiness of an optional string field (`null`/absent and `""` are
falsy). -/
def truthyStr : Option String → Bool
  | none => false
  | some s => s != ""

/-- Step 2 of `verifyLicense` (license-generator.js:616-627): read the state
file; an absent file or one whose content does not parse as a state JSON
yields the fresh default state (the `catch` branch). -/
def loadUserState : Option Msg → UserState
  | none => ⟨0, none, []⟩
  | some m =>
    match m with
    | .jsonState s => s
    | _ => ⟨0, none, []⟩

/-- Step 3 of `verifyLicense` (license-generator.js:630): the machine-binding
test `licenseData.fingerprint && licenseData.fingerprint !== this.getMachineFingerprint().full`.
`machineFull` is the current machine's full fingerprint hash. -/
def bindingMismatch (machineFull : String) (licenseData : LicenseData) : Bool :=
  match licenseData.fingerprint with
  | some fp => fp != "" && fp != machineFull
  | none => false

/-- Step 4 of `verifyLicense` (license-generator.js:635-654): legacy licenses
(any `type` other than `PLUGIN_LICENSE`) get a synthetic `pluginId` from the
switch over the legacy type. -/
def normalizeLegacy (licenseData : LicenseData) : LicenseData :=
  if licenseData.type = "PLUGIN_LICENSE" then licenseData
  else
    { licenseData with
      pluginId := some (match licenseData.type with
        | "DEV_LICENSE" => "com.chahuadev.legacy-dev-plugin"
        | "CUSTOMER_LICENSE" => "com.chahuadev.legacy-customer-plugin"
        | "CHAHUADEV_DAILY_LICENSE" => "com.chahuadev.legacy-daily-plugin"
        | _ => "com.chahuadev.legacy-unknown-plugin") }

/-- Step 5 of `verifyLicense` (license-generator.js:665-696), the tier logic:
no tier yet (`activeTier` falsy) or tier expired → adopt the new duration
from now; active and unexpired → upgrade only if the new duration is one of
the allowed upgrade tiers `{90, 120}` and strictly exceeds the current tier,
otherwise leave the tier fields untouched. -/
def reconcileTier (nowMs : Int) (state : UserState) (newLicenseDuration : Int) :
    UserState :=
  if state.activeTier = 0 then
    { state with activeTier := newLicenseDuration,
                 tierActivationDate := some nowMs }
  else
    let tierExpiry := state.tierActivationDate.getD 0 + state.activeTier * dayMs
    if tierExpiry < nowMs then
      { state with activeTier := newLicenseDuration,
                   tierActivationDate := some nowMs }
    else
      if (newLicenseDuration = 90 ∨ newLicenseDuration = 120) ∧
          state.activeTier < newLicenseDuration then
        { state with activeTier := newLicenseDuration,
                     tierActivationDate := some nowMs }
      else state

/-- Step 6 of `verifyLicense` (license-generator.js:699-702): idempotent
insertion of the plugin id (`includes` check then `push`). -/
def addPlugin (plugins : List String) (pluginId : String) : List String :=
  if pluginId ∈ plugins then plugins else plugins ++ [pluginId]

/-- The success payload of `verifyLicense` (`{...licenseData, status,
daysRemaining, currentTier, activatedPlugins, expiresAt,
tierActivationDate}`). -/
structure VerifyData where
  license : LicenseData
  status : String
  daysRemaining : Int
  currentTier : Int
  activatedPlugins : List String
  expiresAtMs : Int
  tierActivationDate : Option Int
  deriving DecidableEq

/-- Result of one `verifyLicense` call: the returned value and the state
write it performed (`written = none` means the state file was not touched;
`written = some s` means `JSON.stringify(s)` was written over it). -/
structure VerifyOutcome where
  result : Except String VerifyData
  written : Option UserState
  deriving DecidableEq

/-- Steps 3-8 of `verifyLicense` (license-generator.js:629-723), after the
key has been decrypted and the state file read. -/
def verifyDecoded (machineFull : String) (nowMs : Int) (decoded : LicenseData)
    (state0 : UserState) : VerifyOutcome :=
  if bindingMismatch machineFull decoded then
    ⟨.error "License is bound to a different machine.", none⟩
  else
    let licenseData := normalizeLegacy decoded
    if truthyStr licenseData.pluginId = false ∨ licenseData.durationDays = 0 then
      ⟨.error "Invalid or incomplete license key.", none⟩
    else
      let pluginId := licenseData.pluginId.getD ""
      let state1 := reconcileTier nowMs state0 licenseData.durationDays
      let state2 : UserState :=
        ⟨state1.activeTier, state1.tierActivationDate,
         addPlugin state1.activatedPlugins pluginId⟩
      let expiry := state2.tierActivationDate.getD 0 + state2.activeTier * dayMs
      let rawDays := ceilDays (expiry - nowMs)
      ⟨.ok ⟨licenseData,
            "License accepted. Current tier: " ++ toString state2.activeTier ++
              " days.",
            if 0 < rawDays then rawDays else 0,
            state2.activeTier,
            state2.activatedPlugins,
            expiry,
            state2.tierActivationDate⟩,
       some state2⟩

/-- `verifyLicense` (license-generator.js:607-729).  Inputs: the current
machine fingerprint, the clock, the encryption key, the license key text and
the current content of the state file. -/
def verifyLicense (machineFull : String) (nowMs : Int)
    (encryptionKey input : Msg) (stateFile : Option Msg) : VerifyOutcome :=
  match (decryptLicense encryptionKey input).result with
  | .error e => ⟨.error e, none⟩
  | .ok decoded => verifyDecoded machineFull nowMs decoded (loadUserState stateFile)

/-- The license record construction of `generateDailyLicense`
(license-generator.js:362-411), up to and including the validation of its
inputs; the caller-supplied fingerprint goes through `opts.fingerprint || null`
(an empty string is falsy).  The `typeof days !== 'number'` half of the guard
is vacuous here because `days` is typed.  Randomness (`licenseId`) and the
clock (`generatedAt`) are passed in. -/
def generateDailyLicense (days : Int) (pluginId : String)
    (fingerprintOpt : Option String) (licenseId nowIso : String) :
    Except String LicenseData :=
  if days ≤ 0 then .error "จำนวนวันต้องเป็นตัวเลขมากกว่า 0"
  else if pluginId = "" then
    .error "Plugin ID is required to generate a license."
  else
    let providedFp := match fingerprintOpt with | some "" => none | o => o
    .ok { type := "PLUGIN_LICENSE", pluginId := some pluginId,
          licenseId := licenseId, fingerprint := providedFp,
          generatedAt := nowIso, durationDays := days,
          features := ["standard_features", "email_support"],
          issuer := "Chahuadev Thailand", version := "3.1.0",
          orderId := none, customerEmail := none, customerName := none,
          productName := none }

/-- The license record constructed by `generateForOrder`
(license-generator.js:1146-1161): an "unbound" record with the literal
fingerprint sentinel `'UNBOUND'` and whatever `durationDays` the order
payload carries — the function performs no validation of it.  The record
has no `pluginId` and no `features` field (modelled as `none` / `[]`). -/
def generateForOrderRecord (orderId customerEmail customerName productName :
    String) (durationDays : Int) (licenseId nowIso : String) : LicenseData :=
  { type := "PLUGIN_LICENSE", pluginId := none, licenseId := licenseId,
    fingerprint := some "UNBOUND", generatedAt := nowIso,
    durationDays := durationDays, features := [],
    issuer := "Chahuadev Thailand", version := "3.1.0",
    orderId := some orderId, customerEmail := some customerEmail,
    customerName := some customerName, productName := some productName }

/-- `s.includes(sub)` on JS strings. -/
def strIncludes (s sub : String) : Bool := decide (2 ≤ (s.splitOn sub).length)

/-- The module-level mutable state of `license-guard.js`: the single-slot
verification cache (`cache`, `lastCheck`) plus the two files the guard
touches — the watched `tools/license.key` and the activation state file. -/
structure GuardState where
  cache : Option VerifyData
  lastCheck : Int
  licenseFile : Option Msg
  stateFile : Option Msg
  deriving DecidableEq

/-- Result of a guard call: returned value (or thrown error), the guard
state afterwards, and whether the call was answered from the cache slot
without re-running the decode/reconcile path. -/
structure GuardResult where
  result : Except String VerifyData
  state : GuardState
  usedCache : Bool
  deriving DecidableEq

/-- The cache window of `ensureLicensed` (license-guard.js: 30 minutes). -/
def cacheWindowMs : Int := 30 * 60 * 1000

/-- Propagate the state-file write performed inside `verifyLicense` into the
guard's view of the file system. -/
def applyWrite (gs : GuardState) : Option UserState → GuardState
  | none => gs
  | some s => { gs with stateFile := some (Msg.jsonState s) }

/-- JS `o || d` on an optional string. -/
def orDefault (o : Option String) (d : String) : String :=
  match o with
  | some s => if s = "" then d else s
  | none => d

/-- `ensureLicensed` past the cache check (license-guard.js, combined file
lines 1249-1317): read the watched license file, verify it, bypass the
machine-binding failure for `'UNBOUND'` records with a mock result, throw
on any other failure or on an expired key, and fill the cache slot on
success. -/
def ensureLicensedCore (machineFull : String) (nowMs : Int) (gs : GuardState) :
    GuardResult :=
  match gs.licenseFile with
  | none => ⟨.error "ไม่พบไฟล์คีย์", gs, false⟩
  | some content =>
    let vo := verifyLicense machineFull nowMs getFixedEncryptionKey content
      gs.stateFile
    let gs1 := applyWrite gs vo.written
    match vo.result with
    | .error e =>
      if strIncludes e "different machine" then
        match (decryptLicense getFixedEncryptionKey content).result with
        | .ok licenseData =>
          if licenseData.fingerprint = some "UNBOUND" then
            let dd := if licenseData.durationDays = 0 then 90
                      else licenseData.durationDays
            let pid := orDefault licenseData.pluginId "com.chahua.dbmanager"
            let mock : VerifyData :=
              ⟨{ licenseData with pluginId := some pid },
               "UNBOUND license active", dd, dd, [], nowMs + dd * dayMs, none⟩
            ⟨.ok mock, { gs1 with cache := some mock, lastCheck := nowMs }, false⟩
          else ⟨.error e, gs1, false⟩
        | .error _ => ⟨.error e, gs1, false⟩
      else ⟨.error e, gs1, false⟩
    | .ok d =>
      if d.daysRemaining ≤ 0 then ⟨.error "คีย์หมดอายุแล้ว", gs1, false⟩
      else ⟨.ok d, { gs1 with cache := some d, lastCheck := nowMs }, false⟩

/-- `ensureLicensed` (license-guard.js, combined file lines 1245-1318):
`if (cache && (now - lastCheck) < 30 * 60 * 1000) return cache`. -/
def ensureLicensed (machineFull : String) (nowMs : Int) (gs : GuardState) :
    GuardResult :=
  match gs.cache with
  | some c =>
    if nowMs - gs.lastCheck < cacheWindowMs then ⟨.ok c, gs, true⟩
    else ensureLicensedCore machineFull nowMs gs
  | none => ensureLicensedCore machineFull nowMs gs

/-- Result of `installLicenseFromContent`: the data returned (or the error
thrown), the guard state afterwards, and whether the embedded re-check
(`await ensureLicensed()`) was answered from the cache slot. -/
structure InstallResult where
  result : Except String VerifyData
  state : GuardState
  recheckUsedCache : Bool
  deriving DecidableEq

/-- `installLicenseFromContent` (license-guard.js, combined file lines
1320-1327): verify the new content, write it to the watched license
location (`copyContentToRoot`), then call `ensureLicensed` to re-check.
Neither step touches `cache` or `lastCheck` directly. -/
def installLicenseFromContent (machineFull : String) (nowMs : Int)
    (content : Msg) (gs : GuardState) : InstallResult :=
  let check := verifyLicense machineFull nowMs getFixedEncryptionKey content
    gs.stateFile
  let gs1 := applyWrite gs check.written
  match check.result with
  | .error e => ⟨.error e, gs1, false⟩
  | .ok d =>
    let gs2 := { gs1 with licenseFile := some content }
    let er := ensureLicensed machineFull nowMs gs2
    match er.result with
    | .error e => ⟨.error e, er.state, er.usedCache⟩
    | .ok _ => ⟨.ok d, er.state, er.usedCache⟩

example :
    (decryptLicense getFixedEncryptionKey
      (encryptLicense getFixedEncryptionKey (Msg.bytes 0) (Msg.bytes 1)
        (Msg.bytes 2) 17
        { type := "PLUGIN_LICENSE", pluginId := some "p1", licenseId := "L1",
          fingerprint := none, generatedAt := "t", durationDays := 90,
          features := [], issuer := "Chahuadev Thailand", version := "3.1.0",
          orderId := none, customerEmail := none, customerName := none,
          productName := none })).result
    = Except.ok
      { type := "PLUGIN_LICENSE", pluginId := some "p1", licenseId := "L1",
        fingerprint := none, generatedAt := "t", durationDays := 90,
        features := [], issuer := "Chahuadev Thailand", version := "3.1.0",
        orderId := none, customerEmail := none, customerName := none,
        productName := none } := by decide

/-! ### Sample values used by witnesses and counterexamples -/

/-- A representative unbound 90-day plugin license record, as
`generateDailyLicense(90, 'p1')` builds it (with its random/clock inputs
fixed). -/
def sampleRecord : LicenseData :=
  { type := "PLUGIN_LICENSE", pluginId := some "p1", licenseId := "L1",
    fingerprint := none, generatedAt := "2025-01-01T00:00:00.000Z",
    durationDays := 90, features := ["standard_features", "email_support"],
    issuer := "Chahuadev Thailand", version := "3.1.0",
    orderId := none, customerEmail := none, customerName := none,
    productName := none }

/-- A machine-bound variant of `sampleRecord`. -/
def boundRecord : LicenseData := { sampleRecord with fingerprint := some "aaa" }

/-- A 30-day variant of `sampleRecord` (not upgrade-eligible). -/
def thirtyDayRecord : LicenseData :=
  { sampleRecord with durationDays := 30, licenseId := "L30" }

/-- A stale cached verification result sitting in the guard's cache slot. -/
def staleData : VerifyData :=
  ⟨sampleRecord, "old cached result", 5, 90, ["p0"], 123, some 0⟩

/-- Guard state before an install: warm cache (`lastCheck = 0`), an old
license file, no activation state file. -/
def guardBefore : GuardState :=
  ⟨some staleData, 0, some (Msg.lit "old-content"), none⟩

/-- The record inside the freshly installed envelope. -/
def freshRecord : LicenseData :=
  { sampleRecord with
    pluginId := some "p7"
    durationDays := 60
    licenseId := "L7" }

/-- The freshly installed envelope. -/
def freshEnvelope : Msg :=
  encryptLicense getFixedEncryptionKey (Msg.bytes 20) (Msg.bytes 21)
    (Msg.bytes 22) 0 freshRecord

/-- What verifying `freshEnvelope` against an empty state at `nowMs = 1000`
returns. -/
def freshVerifyData : VerifyData :=
  ⟨freshRecord, "License accepted. Current tier: 60 days.", 60, 60, ["p7"],
   5184001000, some 1000⟩

/-- The ciphertext inside the honest envelope
`encryptLicense getFixedEncryptionKey (bytes 1) (bytes 2) (bytes 3) 0
sampleRecord`. -/
def sampleCipher : Msg :=
  Msg.cipher (Msg.pbkdf2 getFixedEncryptionKey (Msg.bytes 1) 100000 32)
    (Msg.bytes 2) (Msg.jsonLicense sampleRecord)

/-- An envelope whose base64 payload is not JSON at all (structurally
invalid). -/
def badStructEnvelope : Msg := Msg.b64 (Msg.lit "notjson")

/-- A ciphertext, correctly produced under the fixed key, whose plaintext is
not JSON — constructible by anyone holding the (embedded, fixed) secret. -/
def badPlainCipher : Msg :=
  Msg.cipher (Msg.pbkdf2 getFixedEncryptionKey (Msg.bytes 4) 100000 32)
    (Msg.bytes 5) (Msg.lit "notjson")

/-- A well-formed envelope with a correct digest whose decrypted plaintext
is not parseable JSON. -/
def badPlainEnvelope : Msg :=
  Msg.b64 (Msg.jsonPackage "3.0" (Msg.hex (Msg.bytes 4))
    (Msg.hex (Msg.bytes 5)) badPlainCipher (Msg.hex (Msg.bytes 6)) 0
    (Msg.sha256 (Msg.cat badPlainCipher (Msg.hex (Msg.bytes 4)))))

/-- The ciphertext of the honest envelope underlying
`tamperedDigestEnvelope`. -/
def honestCipher : Msg :=
  Msg.cipher (Msg.pbkdf2 getFixedEncryptionKey (Msg.bytes 7) 100000 32)
    (Msg.bytes 8) (Msg.jsonLicense sampleRecord)

/-- An honest envelope whose ciphertext portion has been replaced (the
stored digest still covers the original ciphertext): digest mismatch. -/
def tamperedDigestEnvelope : Msg :=
  Msg.b64 (Msg.jsonPackage "3.0" (Msg.hex (Msg.bytes 7))
    (Msg.hex (Msg.bytes 8)) (Msg.lit "beef") (Msg.hex (Msg.bytes 9)) 0
    (Msg.sha256 (Msg.cat honestCipher (Msg.hex (Msg.bytes 7)))))

/-- The record `generateDailyLicense 30 "com.x" none "L" "t"` constructs. -/
def dailySample : LicenseData :=
  { type := "PLUGIN_LICENSE", pluginId := some "com.x", licenseId := "L",
    fingerprint := none, generatedAt := "t", durationDays := 30,
    features := ["standard_features", "email_support"],
    issuer := "Chahuadev Thailand", version := "3.1.0",
    orderId := none, customerEmail := none, customerName := none,
    productName := none }

/-! ### Helper lemmas shared by the claim theorems -/

theorem decrypt_encrypt (k salt iv pad : Msg) (cms : Int) (ld : LicenseData) :
    decryptLicense k (encryptLicense k salt iv pad cms ld)
      = ⟨.ok ld, [.digestCheck, .kdf, .decryptData, .parsePlain]⟩ := by
  simp [decryptLicense, encryptLicense, stripPem, unb64, unhex, aesDecrypt]

theorem verifyLicense_encrypt (machineFull : String) (nowMs : Int)
    (k salt iv pad : Msg) (cms : Int) (ld : LicenseData)
    (stateFile : Option Msg) :
    verifyLicense machineFull nowMs k (encryptLicense k salt iv pad cms ld)
        stateFile
      = verifyDecoded machineFull nowMs ld (loadUserState stateFile) := by
  simp [verifyLicense, decrypt_encrypt]

theorem normalizeLegacy_durationDays (ld : LicenseData) :
    (normalizeLegacy ld).durationDays = ld.durationDays := by
  unfold normalizeLegacy; split <;> rfl

theorem reconcileTier_active (nowMs a T D : Int) (plugins : List String)
    (hT : T ≠ 0) (hNE : ¬ (a + T * dayMs < nowMs)) :
    reconcileTier nowMs ⟨T, some a, plugins⟩ D
      = if (D = 90 ∨ D = 120) ∧ T < D then ⟨D, some nowMs, plugins⟩
        else ⟨T, some a, plugins⟩ := by
  unfold reconcileTier
  simp [hT, hNE]

theorem reconcileTier_expired (nowMs a T D : Int) (plugins : List String)
    (hT : T ≠ 0) (hE : a + T * dayMs < nowMs) :
    reconcileTier nowMs ⟨T, some a, plugins⟩ D = ⟨D, some nowMs, plugins⟩ := by
  unfold reconcileTier
  simp [hT, hE]

theorem mem_addPlugin (plugins : List String) (p q : String)
    (hq : q ∈ plugins) : q ∈ addPlugin plugins p := by
  unfold addPlugin
  split
  · exact hq
  · exact List.mem_append_left _ hq

theorem applyWrite_cache (gs : GuardState) (w : Option UserState) :
    (applyWrite gs w).cache = gs.cache := by
  cases w <;> rfl

theorem applyWrite_lastCheck (gs : GuardState) (w : Option UserState) :
    (applyWrite gs w).lastCheck = gs.lastCheck := by
  cases w <;> rfl

theorem kdf_mem_iff (k : Msg) (v : String) (s i d p : Msg) (c : Int)
    (h : Msg) :
    DecEvent.kdf ∈ (decryptLicense k
        (Msg.b64 (Msg.jsonPackage v s i d p c h))).events
      ↔ Msg.sha256 (Msg.cat d (Msg.hex (unhex s))) = h := by
  unfold decryptLicense
  simp only [stripPem, unb64]
  split
  · next hne => simp [hne]
  · next hne =>
    rcases aesDecrypt (Msg.pbkdf2 k (unhex s) 100000 32) (unhex i) d with e | pl
    · simpa using not_not.mp hne
    · cases pl <;> simpa using not_not.mp hne

/-! ### Claim theorems -/

/-- C1: the claim fails on the code.  A record whose `fingerprint` is the
literal unbound sentinel `'UNBOUND'` — exactly what `generateForOrder`
produces — is rejected by `verifyLicense` with the binding-mismatch error
whenever the machine's fingerprint hash differs from the literal string
`'UNBOUND'` (every real sha256 hex digest does), because the check at
license-generator.js:630 only skips falsy fingerprints, not the sentinel.
No state is written.  `license-guard.js` contains an explicit bypass for
precisely this failure, confirming the rejection contradicts the intent. -/
theorem c1_unbound_sentinel_rejected :
    verifyLicense
        "4e0a9b7c2d5f81634a9c0b8e7d6f5a4b3c2d1e0f9a8b7c6d5e4f3a2b1c0d9e8f" 0
        getFixedEncryptionKey
        (encryptLicense getFixedEncryptionKey (Msg.bytes 0) (Msg.bytes 1)
          (Msg.bytes 2) 0
          (generateForOrderRecord "ORD-2024-001" "john@example.com" "John Doe"
            "Premium Plugin" 90 "CHDEV-LID-1" "2025-01-01T00:00:00.000Z"))
        none
      = ⟨.error "License is bound to a different machine.", none⟩ := by decide

/-- C3: round-trip identity of the codec — decrypting the envelope produced
by `encryptLicense` under the same secret returns the original record
field-for-field, for every record, secret, salt, IV, padding and creation
timestamp. -/
theorem c3_codec_round_trip (k salt iv pad : Msg) (cms : Int)
    (r : LicenseData) :
    (decryptLicense k (encryptLicense k salt iv pad cms r)).result
      = Except.ok r := by
  rw [decrypt_encrypt]

/-- C6: a machine-bound license whose fingerprint differs from the current
machine's full fingerprint makes `verifyLicense` return the binding-mismatch
failure and perform no state write, whatever the state file held. -/
theorem c6_binding_mismatch_no_write (machineFull : String) (nowMs cms : Int)
    (k salt iv pad : Msg) (stateFile : Option Msg) (ld : LicenseData)
    (fp : String) (hfp : ld.fingerprint = some fp) (hne : fp ≠ "")
    (hnm : fp ≠ machineFull) :
    verifyLicense machineFull nowMs k (encryptLicense k salt iv pad cms ld)
        stateFile
      = ⟨.error "License is bound to a different machine.", none⟩ := by
  rw [verifyLicense_encrypt]
  unfold verifyDecoded
  have hb : bindingMismatch machineFull ld = true := by
    unfold bindingMismatch
    rw [hfp]
    simp [hne, hnm]
  rw [hb]
  simp

/-- C6 witness: concrete instance with fingerprint `"aaa"` on machine
`"bbb"`, with a populated state file that stays untouched. -/
theorem c6_binding_mismatch_no_write_witness :
    boundRecord.fingerprint = some "aaa" ∧ ("aaa" : String) ≠ "" ∧
    ("aaa" : String) ≠ "bbb" ∧
    verifyLicense "bbb" 5 getFixedEncryptionKey
        (encryptLicense getFixedEncryptionKey (Msg.bytes 3) (Msg.bytes 4)
          (Msg.bytes 5) 1 boundRecord)
        (some (Msg.jsonState ⟨60, some 0, ["p0"]⟩))
      = ⟨.error "License is bound to a different machine.", none⟩ :=
  ⟨rfl, by decide, by decide,
   c6_binding_mismatch_no_write "bbb" 5 1 getFixedEncryptionKey (Msg.bytes 3)
     (Msg.bytes 4) (Msg.bytes 5) (some (Msg.jsonState ⟨60, some 0, ["p0"]⟩))
     boundRecord "aaa" rfl (by decide) (by decide)⟩
/-- C2: with a persisted Active, unexpired state at tier `T` (activated at
`a`), a successful verification of a license of duration `D` upgrades the
stored `activeTier`/`tierActivationDate` to `(D, now)` exactly when `D` is
one of the upgrade-eligible values `{90, 120}` and exceeds `T`; in every
other case the call still succeeds and both fields are written back
unchanged. -/
theorem c2_active_unexpired_upgrade_iff
    (machineFull : String) (nowMs a T cms : Int) (k salt iv pad : Msg)
    (plugins : List String) (ld : LicenseData)
    (hT : 0 < T) (hNotExp : nowMs ≤ a + T * dayMs)
    (hBind : bindingMismatch machineFull ld = false)
    (hPid : truthyStr (normalizeLegacy ld).pluginId = true)
    (hD : ld.durationDays ≠ 0) :
    (∃ d, (verifyLicense machineFull nowMs k
        (encryptLicense k salt iv pad cms ld)
        (some (Msg.jsonState ⟨T, some a, plugins⟩))).result = Except.ok d) ∧
    (∃ st', (verifyLicense machineFull nowMs k
        (encryptLicense k salt iv pad cms ld)
        (some (Msg.jsonState ⟨T, some a, plugins⟩))).written = some st' ∧
      st'.activeTier
        = (if (ld.durationDays = 90 ∨ ld.durationDays = 120) ∧
              T < ld.durationDays then ld.durationDays else T) ∧
      st'.tierActivationDate
        = (if (ld.durationDays = 90 ∨ ld.durationDays = 120) ∧
              T < ld.durationDays then some nowMs else some a)) := by
  rw [verifyLicense_encrypt]
  unfold verifyDecoded loadUserState
  rw [hBind]
  simp only [Bool.false_eq_true, if_false]
  rw [if_neg (by simp [hPid, normalizeLegacy_durationDays, hD])]
  rw [reconcileTier_active nowMs a T (normalizeLegacy ld).durationDays plugins
        (by omega) (by omega)]
  rw [normalizeLegacy_durationDays]
  by_cases hup : (ld.durationDays = 90 ∨ ld.durationDays = 120) ∧
      T < ld.durationDays
  · simp [hup]
  · simp [hup]

/-- C2 witness: the spec's monotonic non-downgrade scenario — Active tier 60
with 10 days elapsed, a 30-day license is presented: the call succeeds and
both tier fields are written back unchanged. -/
theorem c2_active_unexpired_upgrade_iff_witness :
    (0 : Int) < 60 ∧ (864000000 : Int) ≤ 0 + 60 * dayMs ∧
    bindingMismatch "m" thirtyDayRecord = false ∧
    truthyStr (normalizeLegacy thirtyDayRecord).pluginId = true ∧
    thirtyDayRecord.durationDays ≠ 0 ∧
    ((∃ d, (verifyLicense "m" 864000000 getFixedEncryptionKey
        (encryptLicense getFixedEncryptionKey (Msg.bytes 30) (Msg.bytes 31)
          (Msg.bytes 32) 7 thirtyDayRecord)
        (some (Msg.jsonState ⟨60, some 0, []⟩))).result = Except.ok d) ∧
     (∃ st', (verifyLicense "m" 864000000 getFixedEncryptionKey
        (encryptLicense getFixedEncryptionKey (Msg.bytes 30) (Msg.bytes 31)
          (Msg.bytes 32) 7 thirtyDayRecord)
        (some (Msg.jsonState ⟨60, some 0, []⟩))).written = some st' ∧
      st'.activeTier
        = (if (thirtyDayRecord.durationDays = 90 ∨
              thirtyDayRecord.durationDays = 120) ∧
              60 < thirtyDayRecord.durationDays
           then thirtyDayRecord.durationDays else 60) ∧
      st'.tierActivationDate
        = (if (thirtyDayRecord.durationDays = 90 ∨
              thirtyDayRecord.durationDays = 120) ∧
              60 < thirtyDayRecord.durationDays
           then some 864000000 else some 0))) :=
  ⟨by decide, by decide, by decide, by decide, by decide,
   c2_active_unexpired_upgrade_iff "m" 864000000 0 60 7 getFixedEncryptionKey
     (Msg.bytes 30) (Msg.bytes 31) (Msg.bytes 32) [] thirtyDayRecord
     (by decide) (by decide) (by decide) (by decide) (by decide)⟩

/-- C5: with a persisted state whose tier has expired (now is strictly past
`tierActivationDate + activeTier` days), a successful verification of a
license of duration `D` adopts `activeTier = D` and `tierActivationDate =
now` — the same adoption as from the Unset state — and the state written
back keeps every previously recorded `activatedPlugins` entry. -/
theorem c5_expired_adopts_preserving_plugins
    (machineFull : String) (nowMs a T cms : Int) (k salt iv pad : Msg)
    (plugins : List String) (ld : LicenseData)
    (hT : T ≠ 0) (hExp : a + T * dayMs < nowMs)
    (hBind : bindingMismatch machineFull ld = false)
    (hPid : truthyStr (normalizeLegacy ld).pluginId = true)
    (hD : ld.durationDays ≠ 0) :
    (∃ d, (verifyLicense machineFull nowMs k
        (encryptLicense k salt iv pad cms ld)
        (some (Msg.jsonState ⟨T, some a, plugins⟩))).result = Except.ok d) ∧
    (∃ st', (verifyLicense machineFull nowMs k
        (encryptLicense k salt iv pad cms ld)
        (some (Msg.jsonState ⟨T, some a, plugins⟩))).written = some st' ∧
      st'.activeTier = ld.durationDays ∧
      st'.tierActivationDate = some nowMs ∧
      st'.activatedPlugins
        = addPlugin plugins ((normalizeLegacy ld).pluginId.getD "") ∧
      ∀ q ∈ plugins, q ∈ st'.activatedPlugins) := by
  rw [verifyLicense_encrypt]
  unfold verifyDecoded loadUserState
  rw [hBind]
  simp only [Bool.false_eq_true, if_false]
  rw [if_neg (by simp [hPid, normalizeLegacy_durationDays, hD])]
  rw [reconcileTier_expired nowMs a T (normalizeLegacy ld).durationDays
        plugins hT hExp]
  refine ⟨⟨_, rfl⟩, _, rfl, by simp [normalizeLegacy_durationDays], rfl, rfl,
    fun q hq => mem_addPlugin _ _ _ hq⟩

/-- C5 witness: the spec's concrete scenario — Active tier 90 established
100 days ago (expired), a new 30-day license adopts tier 30 from now and
keeps the existing activated plugin entry `"p0"`. -/
theorem c5_expired_adopts_preserving_plugins_witness :
    (90 : Int) ≠ 0 ∧ (0 : Int) + 90 * dayMs < 8640000000 ∧
    bindingMismatch "m" thirtyDayRecord = false ∧
    truthyStr (normalizeLegacy thirtyDayRecord).pluginId = true ∧
    thirtyDayRecord.durationDays ≠ 0 ∧
    ((∃ d, (verifyLicense "m" 8640000000 getFixedEncryptionKey
        (encryptLicense getFixedEncryptionKey (Msg.bytes 33) (Msg.bytes 34)
          (Msg.bytes 35) 7 thirtyDayRecord)
        (some (Msg.jsonState ⟨90, some 0, ["p0"]⟩))).result = Except.ok d) ∧
     (∃ st', (verifyLicense "m" 8640000000 getFixedEncryptionKey
        (encryptLicense getFixedEncryptionKey (Msg.bytes 33) (Msg.bytes 34)
          (Msg.bytes 35) 7 thirtyDayRecord)
        (some (Msg.jsonState ⟨90, some 0, ["p0"]⟩))).written = some st' ∧
      st'.activeTier = thirtyDayRecord.durationDays ∧
      st'.tierActivationDate = some 8640000000 ∧
      st'.activatedPlugins
        = addPlugin ["p0"] ((normalizeLegacy thirtyDayRecord).pluginId.getD "") ∧
      ∀ q ∈ ["p0"], q ∈ st'.activatedPlugins)) :=
  ⟨by decide, by decide, by decide, by decide, by decide,
   c5_expired_adopts_preserving_plugins "m" 8640000000 0 90 7
     getFixedEncryptionKey (Msg.bytes 33) (Msg.bytes 34) (Msg.bytes 35)
     ["p0"] thirtyDayRecord (by decide) (by decide) (by decide) (by decide)
     (by decide)⟩

/-- C4 counterexample: a single-byte modification of the salt portion of an
encoded envelope that is NOT detected.  The envelope differs from the
honest `encryptLicense getFixedEncryptionKey (bytes 1) (bytes 2) (bytes 3)
0 sampleRecord` only in its salt field, whose hex text has a letter's case
flipped (`hexUpper` vs `hex` — a different text over the same bytes;
`Buffer.from(·,'hex')` parses hex case-insensitively while the digest is
recomputed over the canonical lowercase `salt.toString('hex')`).  `decode`
does not fail with an integrity error: it succeeds and returns the record. -/
theorem c4_salt_case_flip_counterexample :
    Msg.hexUpper (Msg.bytes 1) ≠ Msg.hex (Msg.bytes 1) ∧
    (decryptLicense getFixedEncryptionKey
      (Msg.b64 (Msg.jsonPackage "3.0" (Msg.hexUpper (Msg.bytes 1))
        (Msg.hex (Msg.bytes 2)) sampleCipher (Msg.hex (Msg.bytes 3)) 0
        (Msg.sha256 (Msg.cat sampleCipher (Msg.hex (Msg.bytes 1))))))).result
      = Except.ok sampleRecord := by decide

/-- C4 (amended): for an encoded envelope, every modification of its
ciphertext portion (as text) and every modification of its salt portion
that changes the parsed salt bytes makes `decode` fail with the integrity
error, and the digest comparison is the only stage that runs — no key
derivation and no decryption is attempted (the events list is exactly
`[digestCheck]`).  Salt-text modifications that leave the parsed bytes
unchanged (case flips) are not detected. -/
theorem c4_tamper_detected_before_kdf (k salt iv pad d' s' : Msg)
    (cms : Int) (ld : LicenseData)
    (h : d' ≠ Msg.cipher (Msg.pbkdf2 k salt 100000 32) iv (Msg.jsonLicense ld)
         ∨ unhex s' ≠ salt) :
    decryptLicense k (Msg.b64 (Msg.jsonPackage "3.0" s' (Msg.hex iv) d'
        (Msg.hex pad) cms
        (Msg.sha256 (Msg.cat
          (Msg.cipher (Msg.pbkdf2 k salt 100000 32) iv (Msg.jsonLicense ld))
          (Msg.hex salt)))))
      = ⟨Except.error "License decryption failed: License integrity check failed",
         [DecEvent.digestCheck]⟩ := by
  have hc : Msg.sha256 (Msg.cat d' (Msg.hex (unhex s')))
      ≠ Msg.sha256 (Msg.cat
          (Msg.cipher (Msg.pbkdf2 k salt 100000 32) iv (Msg.jsonLicense ld))
          (Msg.hex salt)) := by
    simp only [ne_eq, Msg.sha256.injEq, Msg.cat.injEq, Msg.hex.injEq]
    rintro ⟨h1, h2⟩
    rcases h with h | h
    · exact h h1
    · exact h h2
  simp only [decryptLicense, stripPem, unb64]
  rw [if_pos hc]

/-- C4 witness: a concrete ciphertext replacement is rejected with the
integrity error without running the KDF or the cipher. -/
theorem c4_tamper_detected_before_kdf_witness :
    (Msg.lit "ff" ≠ Msg.cipher
        (Msg.pbkdf2 getFixedEncryptionKey (Msg.bytes 1) 100000 32)
        (Msg.bytes 2) (Msg.jsonLicense sampleRecord)
      ∨ unhex (Msg.hex (Msg.bytes 1)) ≠ Msg.bytes 1) ∧
    decryptLicense getFixedEncryptionKey
        (Msg.b64 (Msg.jsonPackage "3.0" (Msg.hex (Msg.bytes 1))
          (Msg.hex (Msg.bytes 2)) (Msg.lit "ff") (Msg.hex (Msg.bytes 3)) 0
          (Msg.sha256 (Msg.cat
            (Msg.cipher (Msg.pbkdf2 getFixedEncryptionKey (Msg.bytes 1) 100000 32)
              (Msg.bytes 2) (Msg.jsonLicense sampleRecord))
            (Msg.hex (Msg.bytes 1))))))
      = ⟨Except.error "License decryption failed: License integrity check failed",
         [DecEvent.digestCheck]⟩ :=
  ⟨Or.inl (by decide),
   c4_tamper_detected_before_kdf getFixedEncryptionKey (Msg.bytes 1)
     (Msg.bytes 2) (Msg.bytes 3) (Msg.lit "ff") (Msg.hex (Msg.bytes 1)) 0
     sampleRecord (Or.inl (by decide))⟩

/-- C7 counterexample: installing a fresh, valid envelope while the guard's
cached result is still inside the 30-minute window does NOT invalidate the
cache — after `installLicenseFromContent` the cache slot still holds the
old result, the install's own re-check was answered from the cache, and the
next verification call (here at `nowMs = 2000`) also returns the stale
cached result instead of re-running the decode-and-reconcile path. -/
theorem c7_stale_cache_counterexample :
    staleData ≠ freshVerifyData ∧
    (installLicenseFromContent "m" 1000 freshEnvelope guardBefore).state.cache
      = some staleData ∧
    (installLicenseFromContent "m" 1000 freshEnvelope guardBefore).recheckUsedCache
      = true ∧
    (ensureLicensed "m" 2000
        (installLicenseFromContent "m" 1000 freshEnvelope guardBefore).state).result
      = Except.ok staleData ∧
    (ensureLicensed "m" 2000
        (installLicenseFromContent "m" 1000 freshEnvelope guardBefore).state).usedCache
      = true := by decide

/-- C7 (amended): `license-guard.js`'s `installLicenseFromContent` never
touches the module-level cache slot: whenever the cache is warm (within the
30-minute window), installing a new valid envelope leaves the old cached
result in place, the embedded re-check is answered from the cache, and the
new content is only written to the watched license file. -/
theorem c7_install_keeps_warm_cache (machineFull : String) (nowMs : Int)
    (content : Msg) (gs : GuardState) (c d : VerifyData)
    (hc : gs.cache = some c) (hw : nowMs - gs.lastCheck < cacheWindowMs)
    (hv : (verifyLicense machineFull nowMs getFixedEncryptionKey content
        gs.stateFile).result = Except.ok d) :
    (installLicenseFromContent machineFull nowMs content gs).state.cache
      = some c ∧
    (installLicenseFromContent machineFull nowMs content gs).recheckUsedCache
      = true ∧
    (installLicenseFromContent machineFull nowMs content gs).state.licenseFile
      = some content ∧
    (installLicenseFromContent machineFull nowMs content gs).result
      = Except.ok d := by
  obtain ⟨cch, lch, lfh, sfh⟩ := gs
  simp only [GuardState.cache] at hc
  subst hc
  simp only [GuardState.stateFile] at hv
  simp only [GuardState.lastCheck] at hw
  cases hww : (verifyLicense machineFull nowMs getFixedEncryptionKey content
      sfh).written <;>
    simp [installLicenseFromContent, hv, hww, applyWrite, ensureLicensed, hw]

/-- C7 witness of the amended claim at the concrete install scenario. -/
theorem c7_install_keeps_warm_cache_witness :
    guardBefore.cache = some staleData ∧
    (1000 : Int) - guardBefore.lastCheck < cacheWindowMs ∧
    (verifyLicense "m" 1000 getFixedEncryptionKey freshEnvelope
        guardBefore.stateFile).result = Except.ok freshVerifyData ∧
    ((installLicenseFromContent "m" 1000 freshEnvelope guardBefore).state.cache
       = some staleData ∧
     (installLicenseFromContent "m" 1000 freshEnvelope guardBefore).recheckUsedCache
       = true ∧
     (installLicenseFromContent "m" 1000 freshEnvelope guardBefore).state.licenseFile
       = some freshEnvelope ∧
     (installLicenseFromContent "m" 1000 freshEnvelope guardBefore).result
       = Except.ok freshVerifyData) :=
  ⟨rfl, by decide, by decide,
   c7_install_keeps_warm_cache "m" 1000 freshEnvelope guardBefore staleData
     freshVerifyData rfl (by decide) (by decide)⟩

/-- C8 counterexample: a structurally invalid envelope and a well-formed
envelope whose decrypted plaintext is unparseable produce the very same
caller-visible error value (both surface the JSON parse error of the text
`"notjson"`), although the causes differ (the internal stage traces are
different) — the caller cannot tell the two apart. -/
theorem c8_struct_vs_plaintext_same_error :
    badStructEnvelope ≠ badPlainEnvelope ∧
    (decryptLicense getFixedEncryptionKey badStructEnvelope).result
      = (decryptLicense getFixedEncryptionKey badPlainEnvelope).result ∧
    (decryptLicense getFixedEncryptionKey badStructEnvelope).events
      ≠ (decryptLicense getFixedEncryptionKey badPlainEnvelope).events := by
  decide

/-- C8 (amended): `decode` gives the digest-mismatch cause its own error
message, distinguishable from the parse-failure errors; but the other two
causes — structurally invalid envelope and well-formed envelope with
unparseable plaintext — surface through the same JSON-parse error message
and coincide whenever the offending texts coincide, so only the digest
class is reliably distinguishable. -/
theorem c8_error_classes_amended :
    (decryptLicense getFixedEncryptionKey tamperedDigestEnvelope).result
      = Except.error "License decryption failed: License integrity check failed" ∧
    (decryptLicense getFixedEncryptionKey badStructEnvelope).result
      = Except.error
          "License decryption failed: Unexpected token n in JSON at position 0" ∧
    (decryptLicense getFixedEncryptionKey badPlainEnvelope).result
      = Except.error
          "License decryption failed: Unexpected token n in JSON at position 0" ∧
    ("License decryption failed: License integrity check failed" : String)
      ≠ "License decryption failed: Unexpected token n in JSON at position 0" := by
  decide

/-- C9 counterexample: `generateForOrder` performs no validation of the
order's `durationDays` and happily constructs a record with
`durationDays = 0`, violating the claimed invariant `durationDays > 0`. -/
theorem c9_order_duration_unchecked :
    (generateForOrderRecord "ORD-1" "e@x.com" "n" "p" 0 "L0" "t").durationDays
      = 0 ∧
    ¬ 0 < (generateForOrderRecord "ORD-1" "e@x.com" "n" "p" 0 "L0"
      "t").durationDays := by decide

/-- C9 (amended): `generateDailyLicense` validates its duration and only
ever constructs records with a positive `durationDays`; `generateForOrder`
performs no such validation and constructs the record with whatever
duration the order payload carries (including zero or negative values). -/
theorem c9_duration_validation_amended :
    (∀ (days : Int) (pid : String) (fp : Option String) (lid t : String)
        (r : LicenseData),
        generateDailyLicense days pid fp lid t = Except.ok r →
          0 < r.durationDays) ∧
    (∀ (oid em nm pn : String) (d : Int) (lid t : String),
        (generateForOrderRecord oid em nm pn d lid t).durationDays = d) := by
  constructor
  · intro days pid fp lid t r h
    unfold generateDailyLicense at h
    by_cases h1 : days ≤ 0
    · rw [if_pos h1] at h
      exact absurd h (by simp)
    · rw [if_neg h1] at h
      by_cases h2 : pid = ""
      · rw [if_pos h2] at h
        exact absurd h (by simp)
      · rw [if_neg h2] at h
        simp only [Except.ok.injEq] at h
        subst h
        simpa using by omega
  · intro oid em nm pn d lid t
    rfl

/-- C9 witness: `generateDailyLicense 30 ...` succeeds and the constructed
record has a positive duration. -/
theorem c9_duration_validation_amended_witness :
    generateDailyLicense 30 "com.x" none "L" "t" = Except.ok dailySample ∧
    0 < dailySample.durationDays :=
  ⟨by decide,
   c9_duration_validation_amended.1 30 "com.x" none "L" "t" dailySample
     (by decide)⟩

/-- C10: the integrity digest covers only the ciphertext and the salt.  For
any two envelopes agreeing on the salt field, ciphertext and stored digest
but differing arbitrarily in version tag, IV, random padding and creation
timestamp, the digest check yields the same outcome (the KDF stage runs in
one iff it runs in the other); in particular an honest envelope with its
IV, version, padding or timestamp fields replaced still passes the
integrity check. -/
theorem c10_digest_ignores_iv_version_padding
    (k s d h i1 i2 p1 p2 : Msg) (v1 v2 : String) (c1 c2 : Int)
    (salt iv : Msg) (ld : LicenseData) :
    ((DecEvent.kdf ∈ (decryptLicense k
        (Msg.b64 (Msg.jsonPackage v1 s i1 d p1 c1 h))).events) ↔
     (DecEvent.kdf ∈ (decryptLicense k
        (Msg.b64 (Msg.jsonPackage v2 s i2 d p2 c2 h))).events)) ∧
    DecEvent.kdf ∈ (decryptLicense k
        (Msg.b64 (Msg.jsonPackage v1 (Msg.hex salt) i1
          (Msg.cipher (Msg.pbkdf2 k salt 100000 32) iv (Msg.jsonLicense ld))
          p1 c1
          (Msg.sha256 (Msg.cat
            (Msg.cipher (Msg.pbkdf2 k salt 100000 32) iv (Msg.jsonLicense ld))
            (Msg.hex salt)))))).events := by
  constructor
  · rw [kdf_mem_iff, kdf_mem_iff]
  · rw [kdf_mem_iff]
    simp [unhex]
